import Mathlib

/-!
Shallow embedding of `src/profile/gpu_profile.cpp` (an OpenCL element-wise
addition micro-benchmark) and proofs about its pipeline: device selection,
program building, buffer staging, kernel-argument binding, dispatch with
profiling, read-back, and result verification.

OpenCL API calls are modelled by environments that record the status each
call would return; the control flow of the C++ code is translated directly.
`cl_int` statuses are modelled as `Int` (every check in the source is a
sign test, and the one bitwise accumulation `|=` is `Int.lor`, which agrees
with 32-bit two .s-complement OR on in-range values).
-/

namespace GpuProfile

/-- Fixed configuration constants from the source. -/
def ARRAY_SIZE : ℕ := 100000

def PROGRAM_FILE : String := "add.cl"

def KERNEL_FUNC : String := "add"

/-- OpenCL status code CL_DEVICE_NOT_FOUND. -/
def CL_DEVICE_NOT_FOUND : Int := -1

/-- Result of a pipeline stage: either the process terminates fatally with a
printed message and an exit code, or the stage yields a value. -/
inductive Outcome (α : Type) where
  | fatal (message : String) (code : ℕ)
  | ok (val : α)
deriving DecidableEq, Repr

/-- Translation of `check_status`: a negative status prints the message and
calls `exit(1)`. -/
def check_status (status : Int) (message : String) : Outcome Unit :=
  if status < 0 then .fatal message 1 else .ok ()

/-! ## Device selector (`init_device`) -/

inductive DevType where
  | gpuType
  | cpuType
deriving DecidableEq, Repr

/-- API calls `init_device` can make, recorded as a trace. -/
inductive ApiCall where
  | getPlatformIDs
  | getDeviceIDs (t : DevType)
deriving DecidableEq, Repr

/-- Statuses the platform/device enumeration calls would return. -/
structure DeviceEnv where
  platformStatus : Int
  gpuStatus : Int
  cpuStatus : Int

inductive Device where
  | gpu
  | cpu
deriving DecidableEq, Repr

/-- Translation of `init_device`: get a platform (fatal if negative), try the
GPU device class; if that returns `CL_DEVICE_NOT_FOUND` retry with the CPU
class; then a single sign test on the final status. The second component
is the trace of enumeration calls actually made. -/
def init_device (env : DeviceEnv) : Outcome Device × List ApiCall :=
  if env.platformStatus < 0 then
    (.fatal "could not get a platform" 1, [.getPlatformIDs])
  else if env.gpuStatus = CL_DEVICE_NOT_FOUND then
    if env.cpuStatus < 0 then
      (.fatal "no devices found" 1,
        [.getPlatformIDs, .getDeviceIDs .gpuType, .getDeviceIDs .cpuType])
    else
      (.ok .cpu,
        [.getPlatformIDs, .getDeviceIDs .gpuType, .getDeviceIDs .cpuType])
  else if env.gpuStatus < 0 then
    (.fatal "no devices found" 1, [.getPlatformIDs, .getDeviceIDs .gpuType])
  else
    (.ok .gpu, [.getPlatformIDs, .getDeviceIDs .gpuType])

/-! ## Program builder (`build_program`) -/

/-- Environment of `build_program`: whether `fopen` succeeds, the value the
uninitialized local `status` happens to hold when it is first read, and the
statuses of program creation and build. -/
structure BuildEnv where
  fopenOk : Bool
  uninitStatus : Int
  createStatus : Int
  buildStatus : Int
  buildLog : String

inductive BuildOutcome where
  | fatalMsg (message : String) (code : ℕ)
  | nullHandleDeref
  | compileFatal (log : String) (code : ℕ)
  | built
deriving DecidableEq, Repr

/-- Translation of `build_program`. The source calls `fopen` and then runs
`check_status(status, "find opencl kernel failed")` on the local `status`
variable, which has not been assigned yet: the check tests the garbage value
`uninitStatus`, not the `fopen` result. If that garbage value is
non-negative and the file did not open, the next statements (`fseek`,
`ftell`, `rewind`, `fread` on the NULL handle) dereference a null pointer. -/
def build_program (env : BuildEnv) : BuildOutcome :=
  if env.uninitStatus < 0 then .fatalMsg "find opencl kernel failed" 1
  else if env.fopenOk = false then .nullHandleDeref
  else if env.createStatus < 0 then .fatalMsg "create program failed" 1
  else if env.buildStatus < 0 then .compileFatal env.buildLog 1
  else .built

/-! ## Runtime destructor (`Runtime::~Runtime`) -/

inductive Resource where
  | kernel
  | inputBuffer
  | biasBuffer
  | outputBuffer
  | queue
  | program
  | context
deriving DecidableEq, Repr

/-- The release calls made by `Runtime::~Runtime`, in source order:
`clReleaseKernel(kernel); clReleaseMemObject(input_buffer);
clReleaseMemObject(output_buffer); clReleaseCommandQueue(queue);
clReleaseProgram(program); clReleaseContext(context);`.
Note there is no release of `bias_buffer`. -/
def runtimeDtorReleases : List Resource :=
  [.kernel, .inputBuffer, .outputBuffer, .queue, .program, .context]

/-! ## Buffer staging (the three `clCreateBuffer` calls in `main`) -/

/-- Statuses the three `clCreateBuffer` calls would write into the shared
`status` variable, in order: input, bias, output. -/
structure BufferEnv where
  inputStatus : Int
  biasStatus : Int
  outputStatus : Int

/-- Translation of the staging block in `main`: the single `status` variable
is overwritten by each of the three `clCreateBuffer` calls in turn and only
then checked once, so only the last value (the output-buffer creation
status) reaches `check_status`. -/
def stageBuffers (env : BufferEnv) : Outcome Unit :=
  check_status env.outputStatus "create buffer failed"

/-! ## Kernel-argument binding (the three `clSetKernelArg` calls in `main`) -/

/-- Statuses of the three `clSetKernelArg` calls for slots 0 (input buffer),
1 (bias buffer) and 2 (output buffer). -/
structure BindEnv where
  bind0Status : Int
  bind1Status : Int
  bind2Status : Int

/-- The accumulated `status` after
`status = clSetKernelArg(..., 0, ...); status |= clSetKernelArg(..., 1, ...);
status |= clSetKernelArg(..., 2, ...);` — bitwise OR of the three statuses. -/
def bindArgsStatus (env : BindEnv) : Int :=
  Int.lor (Int.lor env.bind0Status env.bind1Status) env.bind2Status

/-- Translation of the argument-binding block of `main`: all three bind
calls are executed unconditionally (the returned trace lists the slots in
the order they are bound), and the single accumulated status is checked
once afterwards. (The source reuses the message "create kernel failed".) -/
def bindArgs (env : BindEnv) : Outcome Unit × List ℕ :=
  (check_status (bindArgsStatus env) "create kernel failed", [0, 1, 2])

/-! ## Dispatch with profiling (`clEnqueueNDRangeKernel` block in `main`) -/

/-- The four profiling counters, named after the `CL_PROFILING_COMMAND_*`
constants. -/
inductive ProfInfo where
  | queued
  | submit
  | start
  | ended
deriving DecidableEq, Repr

inductive DispatchStep where
  | enqueueNDRange
  | waitForEvents
  | statusCheck
  | fatalExit (message : String) (code : ℕ)
  | readProfiling (info : ProfInfo)
deriving DecidableEq, Repr

/-- Translation of the dispatch block of `main` as a step trace:
`clEnqueueNDRangeKernel` is called, then `clWaitForEvents` blocks on the
returned event, then `check_status` tests the submission status (exiting
fatally if negative), and only then are the four profiling timestamps
read, in the order queued, submit, start, end. -/
def dispatchTrace (dispatchStatus : Int) : List DispatchStep :=
  [.enqueueNDRange, .waitForEvents, .statusCheck] ++
    (if dispatchStatus < 0 then
      [.fatalExit "clEnqueueNDRangeKernel failed" 1]
    else
      [.readProfiling .queued, .readProfiling .submit,
       .readProfiling .start, .readProfiling .ended])

/-! ## Read-back and queue drain (`clEnqueueReadBuffer`, `clFinish`) -/

/-- Statuses of the blocking read-back and of `clFinish`. -/
structure FinishEnv where
  readStatus : Int
  finishStatus : Int

/-- Translation of the read-back block of `main`: the read status is checked
by `check_status`, then `status = clFinish(runtime.queue);` assigns the
drain status into `status` — and nothing ever checks it before the variable
is next overwritten (it never is; the verification loop below uses its own
locals). -/
def readAndFinish (env : FinishEnv) : Outcome Unit :=
  match check_status env.readStatus "clEnqueueReadBuffer failed" with
  | .fatal m c => .fatal m c
  | .ok () => .ok ()

/-! ## Host data and result verification -/

/-- Host initialization `input_data[i] = 1.f * (float) i`. Every `i` below
`ARRAY_SIZE` is exactly representable in binary32 (see the claim C9
theorem), so the rational value of the stored float is `i` itself. -/
def input_data (i : ℕ) : ℚ := i

/-- Host initialization `bias_data[i] = 10000.f` (10000 is exactly
representable in binary32). -/
def bias_data (_ : ℕ) : ℚ := 10000

/-- The verification tolerance literal `1e5` (exactly 100000 as a double). -/
def TOLERANCE : ℚ := 100000

/-- The expected value the verifier computes:
`float output = bias_data[i] + input_data[i];`. -/
def expectedOut (i : ℕ) : ℚ := bias_data i + input_data i

/-- Result of the verification loop: either the first failing index with
the expected and actual values (followed by `exit(1)`), or the
"ALL PASSED" print and `return 0`. -/
inductive VerifyResult where
  | failed (idx : ℕ) (expected actual : ℚ)
  | allPassed
deriving DecidableEq, Repr

/-- Index `i` trips the tolerance test
`abs(output - output_data[i]) > 1e5`. -/
def failsAt (out : ℕ → ℚ) (i : ℕ) : Prop :=
  |expectedOut i - out i| > TOLERANCE

instance (out : ℕ → ℚ) (i : ℕ) : Decidable (failsAt out i) := by
  unfold failsAt; infer_instance

/-- The verification loop from index `i` with `fuel` iterations remaining:
on the first index whose absolute difference exceeds the tolerance it
prints the index, expected and actual values and exits; otherwise it
advances. -/
def checkFrom (out : ℕ → ℚ) (i : ℕ) : ℕ → VerifyResult
  | 0 => .allPassed
  | fuel + 1 =>
    if |expectedOut i - out i| > TOLERANCE then
      .failed i (expectedOut i) (out i)
    else
      checkFrom out (i + 1) fuel

/-- The whole verification loop of `main` over `out`, the read-back
contents of the output buffer. -/
def verify (out : ℕ → ℚ) : VerifyResult :=
  checkFrom out 0 ARRAY_SIZE

/-- Process exit code of the verification phase: `exit(1)` via
`check_status(-1, "CHECK RESULT FAILED")` on a mismatch, `return 0` after
printing "ALL PASSED". -/
def exitCode : VerifyResult → ℕ
  | .failed _ _ _ => 1
  | .allPassed => 0

/-! ## Binary32 representability (for the numerical claim) -/

/-- A rational is exactly representable as an IEEE-754 binary32 value: it is
`m * 2 ^ e` with a significand of magnitude below `2 ^ 24` and an exponent
in the range binary32 can scale by. IEEE round-to-nearest is the identity
on such values. -/
def isRepresentableF32 (x : ℚ) : Prop :=
  ∃ m e : ℤ, m.natAbs < 2 ^ 24 ∧ -149 ≤ e ∧ e ≤ 104 ∧ x = m * (2 : ℚ) ^ e

/-! ## Helper lemmas -/

/-- Sign of a bitwise OR of integers (two .s-complement): the result is
negative exactly when one operand is. This is why the source can aggregate
the three `clSetKernelArg` statuses with `|=` and still detect any single
negative status with one check. -/
theorem int_lor_neg_iff (m n : ℤ) : Int.lor m n < 0 ↔ m < 0 ∨ n < 0 := by
  cases m with
  | ofNat a =>
    cases n with
    | ofNat b => simp [Int.lor]; omega
    | negSucc b => simp [Int.lor, Int.negSucc_eq]; omega
  | negSucc a =>
    cases n with
    | ofNat b => simp [Int.lor, Int.negSucc_eq]; omega
    | negSucc b => simp [Int.lor, Int.negSucc_eq]; omega

theorem checkFrom_allPassed (out : ℕ → ℚ) (i fuel : ℕ)
    (h : ∀ k, i ≤ k → k < i + fuel → ¬ failsAt out k) :
    checkFrom out i fuel = .allPassed := by
  induction fuel generalizing i with
  | zero => rfl
  | succ fuel ih =>
    have hi : ¬ (|expectedOut i - out i| > TOLERANCE) := h i le_rfl (by omega)
    unfold checkFrom
    rw [if_neg hi]
    exact ih (i + 1) (fun k hk1 hk2 => h k (by omega) (by omega))

theorem checkFrom_failed (out : ℕ → ℚ) (i fuel j : ℕ)
    (hij : i ≤ j) (hj : j < i + fuel) (hfail : failsAt out j)
    (hmin : ∀ k, i ≤ k → k < j → ¬ failsAt out k) :
    checkFrom out i fuel = .failed j (expectedOut j) (out j) := by
  induction fuel generalizing i with
  | zero => omega
  | succ fuel ih =>
    by_cases hi : |expectedOut i - out i| > TOLERANCE
    · have hj' : i = j := by
        by_contra hne
        exact hmin i le_rfl (by omega) hi
      subst hj'
      unfold checkFrom
      rw [if_pos hi]
    · have hij' : i < j := lt_of_le_of_ne hij fun he => hi (he ▸ hfail)
      unfold checkFrom
      rw [if_neg hi]
      exact ih (i + 1) (by omega) (by omega) fun k hk1 hk2 => hmin k (by omega) hk2

theorem checkFrom_failed_inv (out : ℕ → ℚ) (fuel : ℕ) :
    ∀ i j e a, checkFrom out i fuel = .failed j e a →
      i ≤ j ∧ j < i + fuel ∧ failsAt out j ∧
        (∀ k, i ≤ k → k < j → ¬ failsAt out k) ∧ e = expectedOut j ∧ a = out j := by
  induction fuel with
  | zero => intro i j e a h; simp [checkFrom] at h
  | succ fuel ih =>
    intro i j e a h
    unfold checkFrom at h
    by_cases hi : |expectedOut i - out i| > TOLERANCE
    · rw [if_pos hi] at h
      injection h with h1 h2 h3
      subst h1
      exact ⟨le_rfl, by omega, hi, fun k hk1 hk2 => by omega, h2.symm, h3.symm⟩
    · rw [if_neg hi] at h
      obtain ⟨h1, h2, h3, h4, h5, h6⟩ := ih (i + 1) j e a h
      refine ⟨by omega, by omega, h3, ?_, h5, h6⟩
      intro k hk1 hk2
      by_cases hek : k = i
      · exact hek ▸ hi
      · exact h4 k (by omega) hk2

theorem checkFrom_allPassed_inv (out : ℕ → ℚ) (fuel : ℕ) :
    ∀ i, checkFrom out i fuel = .allPassed →
      ∀ k, i ≤ k → k < i + fuel → ¬ failsAt out k := by
  induction fuel with
  | zero => intro i _ k hk1 hk2; omega
  | succ fuel ih =>
    intro i h k hk1 hk2
    unfold checkFrom at h
    by_cases hi : |expectedOut i - out i| > TOLERANCE
    · rw [if_pos hi] at h; exact absurd h (by simp)
    · rw [if_neg hi] at h
      by_cases hek : k = i
      · exact hek ▸ hi
      · exact ih (i + 1) h k (by omega) (by omega)

/-- A read-back output that is zero on every index up to 90000 and exact
beyond: used to show the tolerance masks gross errors. -/
def badOutput (i : ℕ) : ℚ := if i ≤ 90000 then 0 else expectedOut i

/-! ## Claim theorems -/

/-- Claim C1: for every index below ARRAY_SIZE the verifier computes the
expected value as bias plus input and compares it to the read-back output
with an absolute-difference tolerance; the first index exceeding the
tolerance is reported with its expected and actual values and the process
exits with status 1, and no later index is examined (the reported index is
the least failing one); if no index exceeds the tolerance the program
prints "ALL PASSED" and exits with status 0. -/
theorem verify_first_failure_or_all_passed (out : ℕ → ℚ) :
    ((∀ k, k < ARRAY_SIZE → ¬ failsAt out k) →
        verify out = .allPassed ∧ exitCode (verify out) = 0) ∧
    (∀ j e a, verify out = .failed j e a →
        j < ARRAY_SIZE ∧ failsAt out j ∧ (∀ k, k < j → ¬ failsAt out k) ∧
          e = expectedOut j ∧ a = out j ∧ exitCode (verify out) = 1) ∧
    ((∃ k, k < ARRAY_SIZE ∧ failsAt out k) →
        ∃ j e a, verify out = .failed j e a) := by
  refine ⟨?_, ?_, ?_⟩
  · intro h
    have hall : verify out = .allPassed :=
      checkFrom_allPassed out 0 ARRAY_SIZE fun k _ hk2 => h k (by omega)
    exact ⟨hall, by rw [hall]; rfl⟩
  · intro j e a h
    obtain ⟨h1, h2, h3, h4, h5, h6⟩ := checkFrom_failed_inv out ARRAY_SIZE 0 j e a h
    exact ⟨by omega, h3, fun k hk => h4 k (by omega) hk, h5, h6, by rw [h]; rfl⟩
  · intro hex
    obtain ⟨k, hk, hfail⟩ := hex
    cases hv : verify out with
    | allPassed =>
      exact absurd hfail (checkFrom_allPassed_inv out ARRAY_SIZE 0 hv k (by omega) (by omega))
    | failed j e a => exact ⟨j, e, a, rfl⟩

/-- Witness for claim C1: the exact expected output passes verification with
exit code 0, and a constant 200000 output fails with exit code 1. -/
theorem verify_first_failure_or_all_passed_witness :
    (verify expectedOut = .allPassed ∧ exitCode (verify expectedOut) = 0) ∧
    (∃ j e a, verify (fun _ => (200000 : ℚ)) = .failed j e a ∧
        exitCode (verify (fun _ => (200000 : ℚ))) = 1) := by
  constructor
  · exact (verify_first_failure_or_all_passed expectedOut).1 fun k _ => by
      simp [failsAt, TOLERANCE]
  · obtain ⟨j, e, a, hf⟩ :=
      (verify_first_failure_or_all_passed (fun _ => (200000 : ℚ))).2.2
        ⟨0, by norm_num [ARRAY_SIZE],
          by norm_num [failsAt, expectedOut, input_data, bias_data, TOLERANCE]⟩
    exact ⟨j, e, a, hf,
      ((verify_first_failure_or_all_passed (fun _ => (200000 : ℚ))).2.1
        j e a hf).2.2.2.2.2⟩

/-- Claim C10: the tolerance literal is exactly 100000; a mismatch is
reported only when the absolute difference between expected and read-back
value exceeds 100000; every expected value lies in [10000, 109999]; and the
grossly wrong output that is 0 at every index up to 90000 still passes
verification. -/
theorem tolerance_is_1e5_and_masks_gross_errors :
    TOLERANCE = 100000 ∧
    (∀ (out : ℕ → ℚ) (j : ℕ) (e a : ℚ), verify out = .failed j e a →
        |expectedOut j - out j| > 100000) ∧
    (∀ i, i < ARRAY_SIZE → 10000 ≤ expectedOut i ∧ expectedOut i ≤ 109999) ∧
    verify badOutput = .allPassed := by
  refine ⟨rfl, ?_, ?_, ?_⟩
  · intro out j e a h
    have h3 := (checkFrom_failed_inv out ARRAY_SIZE 0 j e a h).2.2.1
    simpa [failsAt, TOLERANCE] using h3
  · intro i hi
    have hsize : i < 100000 := hi
    have hle : (i : ℚ) ≤ 99999 := by exact_mod_cast (by omega : i ≤ 99999)
    have hnn : (0 : ℚ) ≤ i := Nat.cast_nonneg i
    constructor
    · simp only [expectedOut, bias_data, input_data]; linarith
    · simp only [expectedOut, bias_data, input_data]; linarith
  · apply checkFrom_allPassed
    intro k _ _
    simp only [failsAt, badOutput, TOLERANCE, expectedOut, bias_data, input_data]
    by_cases hk : k ≤ 90000
    · rw [if_pos hk, sub_zero]
      have hc : (k : ℚ) ≤ 90000 := by exact_mod_cast hk
      have hnn : (0 : ℚ) ≤ 10000 + k := by positivity
      rw [abs_of_nonneg hnn]
      push_neg
      linarith
    · rw [if_neg hk, sub_self]
      norm_num

/-- Witness for claim C10: at index 0 a failing run (constant 200000 output)
indeed exceeds the tolerance by more than 100000, and the expected value at
index 5 lies in the stated range. -/
theorem tolerance_is_1e5_and_masks_gross_errors_witness :
    |expectedOut 0 - (200000 : ℚ)| > 100000 ∧
      (10000 ≤ expectedOut 5 ∧ expectedOut 5 ≤ 109999) := by
  constructor
  · have hfail : verify (fun _ => (200000 : ℚ)) =
        .failed 0 (expectedOut 0) ((fun _ => (200000 : ℚ)) 0) :=
      checkFrom_failed _ 0 ARRAY_SIZE 0 le_rfl (by norm_num [ARRAY_SIZE])
        (by norm_num [failsAt, expectedOut, input_data, bias_data, TOLERANCE])
        (fun k _ hk2 => by omega)
    exact tolerance_is_1e5_and_masks_gross_errors.2.1
      (fun _ => (200000 : ℚ)) 0 _ _ hfail
  · exact tolerance_is_1e5_and_masks_gross_errors.2.2.1 5 (by norm_num [ARRAY_SIZE])

/-- Claim C9: the host arrays hold input i = i and bias i = 10000, and for
any rounding function that is the identity on binary32-representable
rationals (as IEEE round-to-nearest is), the conversion of i to float is
exact, the bias literal is exact, and the expected output bias + input is
exactly i + 10000, for every index below ARRAY_SIZE. -/
theorem host_data_float_exact (round : ℚ → ℚ)
    (hround : ∀ x, isRepresentableF32 x → round x = x)
    (i : ℕ) (hi : i < ARRAY_SIZE) :
    round (i : ℚ) = input_data i ∧ round (bias_data i) = 10000 ∧
      round (bias_data i + input_data i) = (i : ℚ) + 10000 := by
  have hsize : i < 100000 := hi
  have h1 : isRepresentableF32 (i : ℚ) := by
    refine ⟨(i : ℤ), 0, by omega, by norm_num, by norm_num, ?_⟩
    push_cast
    ring
  have h2 : isRepresentableF32 (bias_data i) := by
    refine ⟨10000, 0, by norm_num, by norm_num, by norm_num, ?_⟩
    simp [bias_data]
  have h3 : isRepresentableF32 (bias_data i + input_data i) := by
    refine ⟨10000 + (i : ℤ), 0, by omega, by norm_num, by norm_num, ?_⟩
    simp only [bias_data, input_data]
    push_cast
    ring
  refine ⟨?_, ?_, ?_⟩
  · rw [hround _ h1]; simp [input_data]
  · rw [hround _ h2]; simp [bias_data]
  · rw [hround _ h3]; simp [bias_data, input_data]; ring

/-- Witness for claim C9 with round the identity function at index 0. -/
theorem host_data_float_exact_witness :
    id ((0 : ℕ) : ℚ) = input_data 0 ∧ id (bias_data 0) = 10000 ∧
      id (bias_data 0 + input_data 0) = ((0 : ℕ) : ℚ) + 10000 :=
  host_data_float_exact id (fun _ _ => rfl) 0 (by norm_num [ARRAY_SIZE])

/-- Claim C2 evaluation: the check after `fopen` tests the uninitialized
local `status`, not the `fopen` result. When the kernel source file cannot
be opened and the garbage status value happens to be non-negative, the
build does not fail with the "find opencl kernel failed" message — it goes
on to dereference the NULL file handle. Conversely, when the file opens
fine but the garbage value is negative, the build spuriously reports the
open failure. -/
theorem build_program_checks_uninitialized_status :
    build_program ⟨false, 0, 0, 0, ""⟩ = .nullHandleDeref ∧
    build_program ⟨false, 0, 0, 0, ""⟩ ≠ .fatalMsg "find opencl kernel failed" 1 ∧
    build_program ⟨true, -1, 0, 0, ""⟩ = .fatalMsg "find opencl kernel failed" 1 := by
  refine ⟨rfl, ?_, rfl⟩
  simp [build_program]

/-- Counterexample to claim C3: the destructor never releases the bias
buffer, so not every one of the three buffers is released exactly once. -/
theorem dtor_skips_bias_buffer :
    Resource.biasBuffer ∉ runtimeDtorReleases ∧
      runtimeDtorReleases.count Resource.biasBuffer = 0 := by
  decide

/-- Claim C3 amended: at normal shutdown the destructor releases the kernel,
the input buffer, the output buffer, the queue, the program and the context,
each exactly once and in that order; the bias buffer is never released. -/
theorem dtor_release_order :
    runtimeDtorReleases =
      [.kernel, .inputBuffer, .outputBuffer, .queue, .program, .context] ∧
    (∀ r : Resource, r ≠ .biasBuffer → runtimeDtorReleases.count r = 1) ∧
    runtimeDtorReleases.count .biasBuffer = 0 := by
  refine ⟨rfl, ?_, by decide⟩
  intro r hr
  cases r <;> first | exact absurd rfl hr | decide

/-- Witness for the amended claim C3: the kernel is released exactly once. -/
theorem dtor_release_order_witness :
    runtimeDtorReleases.count Resource.kernel = 1 :=
  dtor_release_order.2.1 .kernel (by decide)

/-- Counterexample to claim C4: a negative status from the input-buffer
creation is overwritten by the later creations, so the pipeline proceeds
to kernel-argument binding instead of terminating. -/
theorem stageBuffers_misses_input_failure :
    stageBuffers ⟨-1, 0, 0⟩ = .ok () := rfl

/-- Claim C4 amended: only the status of the third (output) buffer creation
is checked — once, after all three creations — because the shared status
variable is overwritten by each creation; negative statuses from the input
and bias creations go undetected. -/
theorem stageBuffers_checks_only_output_status (i b o : Int) :
    stageBuffers ⟨i, b, o⟩ = stageBuffers ⟨0, 0, o⟩ ∧
      (stageBuffers ⟨i, b, o⟩ = .fatal "create buffer failed" 1 ↔ o < 0) := by
  refine ⟨rfl, ?_⟩
  by_cases h : o < 0 <;> simp [stageBuffers, check_status, h]

/-- Witness for the amended claim C4: a negative output-creation status is
fatal. -/
theorem stageBuffers_checks_only_output_status_witness :
    stageBuffers ⟨-1, -1, -1⟩ = .fatal "create buffer failed" 1 :=
  (stageBuffers_checks_only_output_status (-1) (-1) (-1)).2.mpr (by norm_num)

/-- Counterexample to claim C5: a negative `clFinish` status does not cause
a fatal FlushError — the drain status is assigned and never checked, so the
stage still reports success. -/
theorem clFinish_negative_status_not_fatal :
    readAndFinish ⟨0, -1⟩ = .ok () := rfl

/-- Claim C5 amended: after the blocking read-back (whose status is checked
and fatal on negative), the queue drain status returned by `clFinish` is
assigned but never checked: the outcome does not depend on it at all. -/
theorem readAndFinish_ignores_finish_status (r f f' : Int) :
    readAndFinish ⟨r, f⟩ = readAndFinish ⟨r, f'⟩ ∧
      (readAndFinish ⟨r, f⟩ = .fatal "clEnqueueReadBuffer failed" 1 ↔ r < 0) := by
  refine ⟨rfl, ?_⟩
  by_cases h : r < 0 <;> simp [readAndFinish, check_status, h]

/-- Witness for the amended claim C5: a negative read-back status is fatal
regardless of the drain status. -/
theorem readAndFinish_ignores_finish_status_witness :
    readAndFinish ⟨-1, -1⟩ = .fatal "clEnqueueReadBuffer failed" 1 :=
  (readAndFinish_ignores_finish_status (-1) (-1) 0).2.mpr (by norm_num)

/-- Claim C6: under a usable platform, device selection tries the GPU class
first and retries with the CPU class exactly when GPU enumeration returns
CL_DEVICE_NOT_FOUND; any other negative GPU status is fatal with no CPU
attempt; and when the CPU fallback also fails the process exits fatally
with the device-unavailable message. -/
theorem init_device_gpu_then_cpu_fallback (env : DeviceEnv)
    (hplat : 0 ≤ env.platformStatus) :
    (ApiCall.getDeviceIDs .cpuType ∈ (init_device env).2 ↔
        env.gpuStatus = CL_DEVICE_NOT_FOUND) ∧
    (env.gpuStatus < 0 → env.gpuStatus ≠ CL_DEVICE_NOT_FOUND →
        init_device env =
          (.fatal "no devices found" 1,
            [.getPlatformIDs, .getDeviceIDs .gpuType])) ∧
    (env.gpuStatus = CL_DEVICE_NOT_FOUND → env.cpuStatus < 0 →
        (init_device env).1 = .fatal "no devices found" 1) := by
  have hp : ¬ env.platformStatus < 0 := not_lt.mpr hplat
  refine ⟨?_, ?_, ?_⟩
  · by_cases hg : env.gpuStatus = CL_DEVICE_NOT_FOUND
    · by_cases hc : env.cpuStatus < 0 <;> simp [init_device, hp, hg, hc]
    · by_cases hg2 : env.gpuStatus < 0 <;> simp [init_device, hp, hg, hg2]
  · intro h1 h2
    simp [init_device, hp, h2, h1]
  · intro h1 h2
    simp [init_device, hp, h1, h2]

/-- Witness for claim C6: with the GPU class reporting not-found the CPU
class is enumerated; with a different negative GPU status selection fails
with no CPU attempt; with both classes failing the fatal message is the
device-unavailable one. -/
theorem init_device_gpu_then_cpu_fallback_witness :
    (ApiCall.getDeviceIDs .cpuType ∈ (init_device ⟨0, -1, 0⟩).2) ∧
      init_device ⟨0, -5, 0⟩ =
        (.fatal "no devices found" 1,
          [.getPlatformIDs, .getDeviceIDs .gpuType]) ∧
      (init_device ⟨0, -1, -1⟩).1 = .fatal "no devices found" 1 := by
  refine ⟨?_, ?_, ?_⟩
  · exact ((init_device_gpu_then_cpu_fallback ⟨0, -1, 0⟩ (by norm_num)).1).mpr rfl
  · exact (init_device_gpu_then_cpu_fallback ⟨0, -5, 0⟩ (by norm_num)).2.1
      (by norm_num) (by decide)
  · exact (init_device_gpu_then_cpu_fallback ⟨0, -1, -1⟩ (by norm_num)).2.2
      rfl (by norm_num)

/-- Claim C7: the three buffers are bound to kernel parameter slots 0, 1, 2
in that fixed order with no short-circuiting (the slot trace is [0, 1, 2]
for every environment, so a failure on slot 0 does not prevent the later
binds), the three statuses are aggregated by bitwise OR into one combined
flag checked once after all three binds, and the check is fatal exactly
when at least one of the three bind statuses is negative. -/
theorem bindArgs_aggregated_check (env : BindEnv) :
    (bindArgs env).2 = [0, 1, 2] ∧
    ((bindArgs env).1 = .fatal "create kernel failed" 1 ↔
        env.bind0Status < 0 ∨ env.bind1Status < 0 ∨ env.bind2Status < 0) := by
  refine ⟨rfl, ?_⟩
  have hs : bindArgsStatus env < 0 ↔
      env.bind0Status < 0 ∨ env.bind1Status < 0 ∨ env.bind2Status < 0 := by
    rw [bindArgsStatus, int_lor_neg_iff, int_lor_neg_iff, or_assoc]
  rw [← hs]
  show check_status (bindArgsStatus env) "create kernel failed" = _ ↔ _
  by_cases h : bindArgsStatus env < 0 <;> simp [check_status, h]

/-- Witness for claim C7: a negative status on the first bind alone is
fatal, and all three slots are still bound. -/
theorem bindArgs_aggregated_check_witness :
    (bindArgs ⟨-1, 0, 0⟩).2 = [0, 1, 2] ∧
      (bindArgs ⟨-1, 0, 0⟩).1 = .fatal "create kernel failed" 1 :=
  ⟨(bindArgs_aggregated_check ⟨-1, 0, 0⟩).1,
    ((bindArgs_aggregated_check ⟨-1, 0, 0⟩).2).mpr (Or.inl (by norm_num))⟩

/-- Claim C8: the dispatch block always performs enqueue, then the blocking
wait on the event, then the status check; on a negative submission status
the fatal exit comes after the wait and no profiling timestamp is read; on
a non-negative status the four profiling reads follow the check in the
extraction order queued, submit, start, end. -/
theorem dispatch_wait_precedes_check_and_reads (s : Int) :
    (s < 0 → dispatchTrace s =
        [.enqueueNDRange, .waitForEvents, .statusCheck,
         .fatalExit "clEnqueueNDRangeKernel failed" 1]) ∧
    (0 ≤ s → dispatchTrace s =
        [.enqueueNDRange, .waitForEvents, .statusCheck,
         .readProfiling .queued, .readProfiling .submit,
         .readProfiling .start, .readProfiling .ended]) := by
  constructor
  · intro h
    simp [dispatchTrace, h]
  · intro h
    simp [dispatchTrace, not_lt.mpr h]

/-- Witness for claim C8 at a failing and at a successful dispatch status. -/
theorem dispatch_wait_precedes_check_and_reads_witness :
    dispatchTrace (-1) =
      [.enqueueNDRange, .waitForEvents, .statusCheck,
       .fatalExit "clEnqueueNDRangeKernel failed" 1] ∧
    dispatchTrace 0 =
      [.enqueueNDRange, .waitForEvents, .statusCheck,
       .readProfiling .queued, .readProfiling .submit,
       .readProfiling .start, .readProfiling .ended] :=
  ⟨(dispatch_wait_precedes_check_and_reads (-1)).1 (by norm_num),
   (dispatch_wait_precedes_check_and_reads 0).2 le_rfl⟩

end GpuProfile
